import Mathlib

/-!
Shallow embedding of `src/youtube_downloader.py` (devcaiada/youtube-downloader).

The repository delegates all media work to the external `pytube` collaborator.
Following the specification, that collaborator is modelled as an environment
(`Env`) of oracles: resolving a URL yields video metadata and a stream list or
raises, `makedirs` may raise, and a stream download yields a sequence of
chunk-progress events plus a produced file (path and an opaque content token)
or raises.  Python exceptions are modelled by `PyErr`; the `except` chain of
`baixar_video` is the `classificar_erro` wrapper.  The filesystem is a flat
association list from paths to content tokens, enough to express the
rename-after-download behaviour of the audio branch.

Where the orchestrator calls into pytube's `StreamQuery`
(`filter`, `first`, `get_highest_resolution`), that collaborator behaviour is
embedded from pytube's documented semantics: `order_by("resolution")` keeps
streams whose attribute is not `None` and sorts them by the integer formed
from the digits of the label (falling back to lexicographic string order when
some label has no digits, mirroring the `ValueError` fallback), `desc`
reverses, `first` takes the head.  Runtime-generated Python message strings
(`str(e)` of an `AttributeError` etc.) are abbreviated to fixed plain-text
stand-ins.
-/

namespace Ytdl

/-- Python exceptions relevant to the program: pytube's `RegexMatchError`,
pytube's `VideoUnavailable`, and any other `Exception` carrying its `str`. -/
inductive PyErr where
  | regexMatchError
  | videoUnavailable
  | other (msg : String)
  deriving DecidableEq

/-- Python `str(e)` of an exception, as used in the f-strings of the source. -/
def str_erro : PyErr → String
  | .regexMatchError => "regex match error"
  | .videoUnavailable => "video unavailable"
  | .other s => s

/-- Metadata of a resolved video (`yt.title`, `yt.length`, `yt.views`). -/
structure VideoInfo where
  titulo : String
  duracao : Nat
  visualizacoes : Nat
  deriving DecidableEq

/-- A pytube stream as seen by this program: its `resolution` attribute
(`None` for pure audio streams), the `progressive` and `only_audio` filter
attributes, and `filesize` (used by the progress callback). -/
structure MediaStream where
  resolution : Option String
  progressive : Bool
  only_audio : Bool
  filesize : Nat
  deriving DecidableEq

/-- The messages delivered to the `callback` progress reporter, one
constructor per distinct f-string of the source. -/
inductive Msg where
  | conectando
  | info (titulo : String) (duracao visualizacoes : Nat)
  | baixandoAudio
  | baixado (pct : Rat)
  | audioSalvo (nome : String)
  | resolucoesDisponiveis (rs : List String)
  | resolucaoNaoDisponivel (r : String)
  | baixandoVideo (r : Option String)
  | videoSalvo (nome : String)
  | obtendoInformacoes
  | tituloVideo (t : String)
  | erroURLInvalida
  | erroVideoIndisponivel
  | erroInesperado (s : String)
  | erroObterResolucoes (s : String)
  deriving DecidableEq

/-- The three `except` handlers of `baixar_video`, in source order: they emit
`Erro: URL inválida...`, `Erro: Este vídeo não está disponível...`, and
`Erro inesperado: str(e)` respectively. -/
def classificar_erro : PyErr → Msg
  | .regexMatchError => .erroURLInvalida
  | .videoUnavailable => .erroVideoIndisponivel
  | .other s => .erroInesperado s

/-- Whether a message is one of the failure messages of the source. -/
def eh_mensagem_de_erro : Msg → Bool
  | .erroURLInvalida => true
  | .erroVideoIndisponivel => true
  | .erroInesperado _ => true
  | .erroObterResolucoes _ => true
  | _ => false

/-- Models `if callback: callback(m)`: the message reaches the reporter only when a
callback was supplied. -/
def emitir (cb : Bool) (m : Msg) : List Msg :=
  if cb then [m] else []

/-- The percentage computed inside `on_progress`:
`(tamanho_total - bytes_remaining) / tamanho_total * 100`, over Python ints
(the subtraction is a true integer subtraction) and true division. -/
def porcentagem (tamanho_total bytes_remaining : Nat) : Rat :=
  (((tamanho_total : Int) - (bytes_remaining : Int) : Int) : Rat)
    / (tamanho_total : Rat) * 100

/-- The progress messages delivered over a download: pytube invokes
`on_progress(stream, chunk, bytes_remaining)` once per chunk event, and the
closure reads the fixed `stream.filesize` as denominator. -/
def mensagens_progresso (s : MediaStream) (eventos : List Nat) : List Msg :=
  eventos.map fun br => Msg.baixado (porcentagem s.filesize br)

/-- Python `s.startswith(pre)`: the characters of `pre` are a prefix of the
characters of `s`. -/
def comeca_com (s pre : String) : Bool :=
  pre.data.isPrefixOf s.data

/-- The digits of a string, in order: `"".join(filter(str.isdigit, s))`. -/
def digitos (s : String) : String :=
  ⟨s.data.filter Char.isDigit⟩

/-- Python `int` applied to a string known to consist of decimal digits:
`ValueError` (`none`) on the empty string, otherwise the decimal value. -/
def int_digitos (s : String) : Option Nat :=
  if s.data.isEmpty then none
  else some (s.data.foldl (fun acc c => acc * 10 + (c.toNat - 48)) 0)

/-- The sort key `int("".join(filter(str.isdigit, resolution)))` used by
pytube's `order_by("resolution")`; `none` when the attribute is `None` or the
`int` conversion would raise `ValueError` (no digits). -/
def chave (s : MediaStream) : Option Nat :=
  s.resolution.bind fun r => int_digitos (digitos r)

/-- The numeric sort key with default `0` (only used where it is known to be
defined). -/
def chaveD (s : MediaStream) : Nat :=
  (chave s).getD 0

/-- pytube `StreamQuery.order_by("resolution")`: drop streams whose attribute
is `None`, then stable-sort by the numeric key; if the `int` conversion fails
for some stream (`ValueError`), fall back to sorting by the raw strings. -/
def order_by_resolution (ss : List MediaStream) : List MediaStream :=
  if (ss.filter fun s => s.resolution.isSome).all fun s => (chave s).isSome then
    (ss.filter fun s => s.resolution.isSome).mergeSort fun a b =>
      decide (chaveD a ≤ chaveD b)
  else
    (ss.filter fun s => s.resolution.isSome).mergeSort fun a b =>
      decide (a.resolution.getD "" ≤ b.resolution.getD "")

/-- pytube `StreamQuery.get_highest_resolution()`:
`self.filter(progressive=True).order_by("resolution").desc().first()`. -/
def get_highest_resolution (ss : List MediaStream) : Option MediaStream :=
  ((order_by_resolution (ss.filter fun s => s.progressive)).reverse).head?

/-- Lines 79-88 of the source: stream selection for the video branch.  Python
`if resolucao:` treats the empty string as falsy, so `some ""` behaves like no
preference.  Returns the fallback-notice messages (if any) and the selected
stream (`none` models the Python `None` that later raises). -/
def escolher_stream (streams : List MediaStream) (resolucao : Option String)
    (cb : Bool) : List Msg × Option MediaStream :=
  match resolucao with
  | some r =>
    if r = "" then ([], get_highest_resolution streams)
    else
      match (streams.filter fun s => s.progressive && s.resolution == some r).head? with
      | some st => ([], some st)
      | none =>
        (emitir cb (.resolucaoNaoDisponivel r), get_highest_resolution streams)
  | none => ([], get_highest_resolution streams)

/-- The filesystem: an association list from file paths to opaque content
tokens (first binding wins). -/
def FS : Type := List (String × Nat)

/-- Look a path up in the filesystem. -/
def fs_lookup (fs : FS) (p : String) : Option Nat :=
  ((fs : List (String × Nat)).find? fun e => e.1 == p).map fun e => e.2

/-- Write a file: the path now maps to the given content. -/
def fs_write (fs : FS) (p : String) (c : Nat) : FS :=
  (p, c) :: (fs : List (String × Nat)).filter fun e => e.1 != p

/-- POSIX `os.rename`: the source must exist (else `FileNotFoundError`); the
content moves to the destination path, silently replacing it, and the source
path is gone (renaming a path onto itself leaves the file in place). -/
def os_rename (fs : FS) (origem destino : String) : Except PyErr FS :=
  match fs_lookup fs origem with
  | none => .error (.other "FileNotFoundError")
  | some c =>
    .ok (fs_write ((fs : List (String × Nat)).filter fun e => e.1 != origem) destino c)

/-- Index of the last occurrence of a character in a list, if any. -/
def ultimo_indice (c : Char) (cs : List Char) : Option Nat :=
  (cs.reverse.findIdx? fun d => d == c).map fun i => cs.length - 1 - i

/-- POSIX `os.path.splitext`: split at the last dot of the basename, unless
every character of the basename up to that dot is itself a dot (leading dots
carry no extension). -/
def os_path_splitext (p : String) : String × String :=
  let cs := p.data
  let inicio : Nat :=
    match ultimo_indice '/' cs with
    | some i => i + 1
    | none => 0
  match ultimo_indice '.' cs with
  | none => (p, "")
  | some di =>
    if inicio ≤ di then
      if ((List.range di).filter fun k => inicio ≤ k).any
          (fun k => cs.getD k ' ' != '.') then
        (⟨cs.take di⟩, ⟨cs.drop di⟩)
      else (p, "")
    else (p, "")

/-- POSIX `os.path.basename`: everything after the last slash. -/
def os_path_basename (p : String) : String :=
  match ultimo_indice '/' p.data with
  | none => p
  | some i => ⟨p.data.drop (i + 1)⟩

/-- The external collaborators, per invocation: `resolve` models constructing
`YouTube(url)` and touching its metadata and `streams` (any of which may
raise); `cwd` is `os.getcwd()`; `makedirs` models `os.makedirs(..., exist_ok=True)`;
`download pasta s` models `s.download(output_path=pasta)`, yielding the
chunk-progress events (`bytes_remaining` values, in delivery order) and either
the produced file (path and content) or an exception. -/
structure Env where
  resolve : Except PyErr (VideoInfo × List MediaStream)
  cwd : String
  makedirs : String → Except PyErr Unit
  download : String → MediaStream → List Nat × Except PyErr (String × Nat)

/-- The `try` body of `baixar_video` (lines 26-105): returns the reporter
trace, the resulting filesystem, and either the returned file path or the
exception that escaped to the `except` chain.

Fidelity notes: the `", ".join` of line 77 raises `TypeError` when some
progressive stream's resolution is `None`, but only when a callback is
present (the f-string lives inside `if callback:`); when the selected stream
is `None`, the attribute access that raises is `stream.resolution` (line 91)
with a callback and `stream.download` (line 101) without one. -/
def baixar_video_corpo (env : Env) (pasta_destino resolucao : Option String)
    (apenas_audio cb : Bool) (fs : FS) : List Msg × FS × Except PyErr String :=
  let t0 := emitir cb .conectando
  match env.resolve with
  | .error e => (t0, fs, .error e)
  | .ok (vi, streams) =>
    let t1 := t0 ++ emitir cb (.info vi.titulo vi.duracao vi.visualizacoes)
    let pasta := pasta_destino.getD env.cwd
    match env.makedirs pasta with
    | .error e => (t1, fs, .error e)
    | .ok () =>
      if apenas_audio then
        let t2 := t1 ++ emitir cb .baixandoAudio
        match (streams.filter fun s => s.only_audio).head? with
        | none =>
          (t2, fs, .error (.other "NoneType object has no attribute download"))
        | some audio =>
          let eventos := (env.download pasta audio).1
          let t3 := t2 ++ if cb then mensagens_progresso audio eventos else []
          match (env.download pasta audio).2 with
          | .error e => (t3, fs, .error e)
          | .ok (arquivo, conteudo) =>
            let fs1 := fs_write fs arquivo conteudo
            let novo := (os_path_splitext arquivo).1 ++ ".mp3"
            match os_rename fs1 arquivo novo with
            | .error e => (t3, fs1, .error e)
            | .ok fs2 =>
              (t3 ++ emitir cb (.audioSalvo (os_path_basename novo)), fs2, .ok novo)
      else
        let progressivos := streams.filter fun s => s.progressive
        if cb ∧ progressivos.any fun s => s.resolution.isNone then
          (t1, fs, .error (.other "TypeError expected str instance, NoneType found"))
        else
          let t2 := t1 ++
            emitir cb (.resolucoesDisponiveis (progressivos.filterMap fun s => s.resolution))
          let t3 := t2 ++ (escolher_stream streams resolucao cb).1
          match (escolher_stream streams resolucao cb).2 with
          | none =>
            (t3, fs, .error (.other (if cb then
              "NoneType object has no attribute resolution"
            else
              "NoneType object has no attribute download")))
          | some stream =>
            let t4 := t3 ++ emitir cb (.baixandoVideo stream.resolution)
            let eventos := (env.download pasta stream).1
            let t5 := t4 ++ if cb then mensagens_progresso stream eventos else []
            match (env.download pasta stream).2 with
            | .error e => (t5, fs, .error e)
            | .ok (arquivo, conteudo) =>
              (t5 ++ emitir cb (.videoSalvo (os_path_basename arquivo)),
                fs_write fs arquivo conteudo, .ok arquivo)

/-- The function `baixar_video` with its `try/except` chain: any exception from the body is
classified by the handlers (which deliver a message when a callback exists)
and the function falls through, returning Python `None` (no file path). -/
def baixar_video (env : Env) (pasta_destino resolucao : Option String)
    (apenas_audio cb : Bool) (fs : FS) : List Msg × FS × Option String :=
  match baixar_video_corpo env pasta_destino resolucao apenas_audio cb fs with
  | (t, fs2, .ok caminho) => (t, fs2, some caminho)
  | (t, fs2, .error e) => (t ++ emitir cb (classificar_erro e), fs2, none)

/-- Lines 118-136, `obter_resolucoes`: list the resolutions of the
progressive streams; any exception yields an error message and `[]`. -/
def obter_resolucoes (env : Env) (cb : Bool) : List Msg × List (Option String) :=
  let t0 := emitir cb .obtendoInformacoes
  match env.resolve with
  | .error e => (t0 ++ emitir cb (.erroObterResolucoes (str_erro e)), [])
  | .ok (vi, streams) =>
    (t0 ++ emitir cb (.tituloVideo vi.titulo),
      (streams.filter fun s => s.progressive).map fun s => s.resolution)

/-- The option loop of `main` (lines 378-384), over the arguments after the
URL.  The `elif` chain: `--audio` sets the flag; `--resolucao` with a
following token records that token (without consuming it — the next iteration
sees the label again); any token not starting with `--` becomes the
destination folder if none was set yet. -/
def analisar_opcoes : List String → Option String → Option String → Bool →
    Option String × Option String × Bool
  | [], pasta, res, audio => (pasta, res, audio)
  | a :: resto, pasta, res, audio =>
    if a = "--audio" then
      analisar_opcoes resto pasta res true
    else if a = "--resolucao" ∧ resto.head?.isSome then
      analisar_opcoes resto pasta resto.head? audio
    else if ¬ comeca_com a "--" ∧ pasta.isNone then
      analisar_opcoes resto (some a) res audio
    else
      analisar_opcoes resto pasta res audio

/-- Lines 366-389, `main`: with more than one argument and `argv[1]` not
`--gui`, parse the options and call `baixar_video` synchronously — with no
callback (the source passes none, so the default `callback=None` applies).
`none` is the GUI branch, which this model does not enter. -/
def executar_cli (env : Env) (argv : List String) (fs : FS) :
    Option (List Msg × FS × Option String) :=
  match argv with
  | _prog :: url :: resto =>
    if url = "--gui" then none
    else
      some (baixar_video env (analisar_opcoes resto none none false).1
        (analisar_opcoes resto none none false).2.1
        (analisar_opcoes resto none none false).2.2 false fs)
  | _ => none

/-- The destination folder the option loop actually produces: the first
argument after the URL that does not start with `--` (the token following
`--resolucao` is not skipped, so a resolution label can land here). -/
def pasta_primeiro_posicional (args : List String) : Option String :=
  (args.filter fun a => !(comeca_com a "--")).head?

/-- The resolution preference the option loop produces: the token following
the last `--resolucao` that has a following token, starting from `acc`. -/
def resolucao_seguindo : List String → Option String → Option String
  | [], acc => acc
  | a :: resto, acc =>
    resolucao_seguindo resto (if a = "--resolucao" then resto.head? <|> acc else acc)

/- Concrete data used by the closed (witness / counterexample) theorems. -/

/-- A 360p progressive stream. -/
def stream360 : MediaStream := ⟨some "360p", true, false, 100⟩

/-- A 720p progressive stream. -/
def stream720 : MediaStream := ⟨some "720p", true, false, 200⟩

/-- A 1080p progressive stream. -/
def stream1080 : MediaStream := ⟨some "1080p", true, false, 300⟩

/-- An audio-only stream (pytube audio streams have `resolution = None`). -/
def streamAudio : MediaStream := ⟨none, false, true, 50⟩

/-- A tiny progressive stream used to exercise the progress computation. -/
def streamProgressoTeste : MediaStream := ⟨some "720p", true, false, 4⟩

/-- Metadata of the example video. -/
def info_exemplo : VideoInfo := ⟨"video exemplo", 120, 1000⟩

/-- A healthy collaborator: resolution succeeds, downloads succeed and
produce `video exemplo.mp4` after three chunk events. -/
def env_exemplo : Env where
  resolve := .ok (info_exemplo, [stream360, streamAudio, stream1080, stream720])
  cwd := "/home/usuario"
  makedirs := fun _ => .ok ()
  download := fun _ s =>
    ([s.filesize, s.filesize / 2, 0], .ok ("/home/usuario/video exemplo.mp4", 11))

/-- A collaborator whose resolution step raises `VideoUnavailable`. -/
def env_indisponivel : Env where
  resolve := .error .videoUnavailable
  cwd := "/home/usuario"
  makedirs := fun _ => .ok ()
  download := fun _ _ => ([], .error (.other "sem dados"))

/-- A collaborator whose resolution step raises a generic exception. -/
def env_falha : Env where
  resolve := .error (.other "rede indisponivel")
  cwd := "/home/usuario"
  makedirs := fun _ => .ok ()
  download := fun _ _ => ([], .error (.other "sem dados"))

/-- A collaborator with no audio-only stream at all. -/
def env_sem_audio : Env where
  resolve := .ok (info_exemplo, [stream360, stream720])
  cwd := "/home/usuario"
  makedirs := fun _ => .ok ()
  download := fun _ s => ([s.filesize, 0], .ok ("/home/usuario/video exemplo.mp4", 11))

/-- A collaborator whose audio download already lands as `musica.mp3`, so the
extension-normalising rename is a rename onto the same path. -/
def env_mp3 : Env where
  resolve := .ok (info_exemplo, [streamAudio])
  cwd := "/home/usuario"
  makedirs := fun _ => .ok ()
  download := fun _ _ => ([], .ok ("musica.mp3", 7))

/-! ## Helper lemmas -/

theorem chave_isSome_resolution {s : MediaStream} (h : (chave s).isSome) :
    s.resolution.isSome := by
  unfold chave at h
  cases hr : s.resolution with
  | none => rw [hr] at h; simp at h
  | some r => simp

theorem chaveD_le_getLast {l : List MediaStream}
    (h : l.Pairwise fun a b => chaveD a ≤ chaveD b) :
    ∀ x ∈ l, ∀ m, l.getLast? = some m → chaveD x ≤ chaveD m := by
  induction l with
  | nil => intro x hx; exact absurd hx (List.not_mem_nil x)
  | cons a t ih =>
    intro x hx m hm
    rcases List.pairwise_cons.mp h with ⟨ha, ht⟩
    cases t with
    | nil =>
      simp only [List.getLast?_singleton, Option.some.injEq] at hm
      simp only [List.mem_singleton] at hx
      subst hm; subst hx
      exact le_refl _
    | cons b t2 =>
      rw [List.getLast?_cons_cons] at hm
      rcases List.mem_cons.mp hx with hxa | hxt
      · subst hxa
        exact ha m (List.mem_of_getLast?_eq_some hm)
      · exact ih ht x hxt m hm

theorem melhor_resolucao_maxima (streams : List MediaStream)
    (hall : ∀ s ∈ streams, s.progressive = true → (chave s).isSome)
    (s0 : MediaStream) (hs0 : s0 ∈ streams) (hp0 : s0.progressive = true) :
    ∃ sel, get_highest_resolution streams = some sel ∧ sel ∈ streams ∧
      sel.progressive = true ∧
      ∀ s ∈ streams, s.progressive = true → chaveD s ≤ chaveD sel := by
  have hmem : ∀ s : MediaStream,
      s ∈ streams.filter (fun s => s.progressive) ↔
        s ∈ streams ∧ s.progressive = true := by
    intro s; exact List.mem_filter
  have hattr : (streams.filter fun s => s.progressive).filter
      (fun s => s.resolution.isSome) = streams.filter fun s => s.progressive := by
    apply List.filter_eq_self.mpr
    intro s hs
    exact chave_isSome_resolution (hall s ((hmem s).mp hs).1 ((hmem s).mp hs).2)
  have hcond : ((streams.filter fun s => s.progressive).filter
      (fun s => s.resolution.isSome)).all (fun s => (chave s).isSome) = true := by
    rw [hattr]
    exact List.all_eq_true.mpr fun s hs => hall s ((hmem s).mp hs).1 ((hmem s).mp hs).2
  have horder : order_by_resolution (streams.filter fun s => s.progressive) =
      (streams.filter fun s => s.progressive).mergeSort
        (fun a b => decide (chaveD a ≤ chaveD b)) := by
    unfold order_by_resolution
    rw [if_pos hcond, hattr]
  have htrans : ∀ a b c : MediaStream,
      (fun a b => decide (chaveD a ≤ chaveD b)) a b →
      (fun a b => decide (chaveD a ≤ chaveD b)) b c →
      (fun a b => decide (chaveD a ≤ chaveD b)) a c := by
    intro a b c hab hbc
    simp only [decide_eq_true_eq] at *
    omega
  have htotal : ∀ a b : MediaStream,
      ((fun a b => decide (chaveD a ≤ chaveD b)) a b ||
        (fun a b => decide (chaveD a ≤ chaveD b)) b a) = true := by
    intro a b
    simp only [Bool.or_eq_true, decide_eq_true_eq]
    omega
  have hsorted := List.sorted_mergeSort htrans htotal
    (streams.filter fun s => s.progressive)
  have hsorted2 : ((streams.filter fun s => s.progressive).mergeSort
      (fun a b => decide (chaveD a ≤ chaveD b))).Pairwise
        (fun a b => chaveD a ≤ chaveD b) := by
    refine hsorted.imp ?_
    intro a b h
    simpa using h
  have hs0sort : s0 ∈ (streams.filter fun s => s.progressive).mergeSort
      (fun a b => decide (chaveD a ≤ chaveD b)) :=
    List.mem_mergeSort.mpr ((hmem s0).mpr ⟨hs0, hp0⟩)
  have hne : (streams.filter fun s => s.progressive).mergeSort
      (fun a b => decide (chaveD a ≤ chaveD b)) ≠ [] :=
    List.ne_nil_of_mem hs0sort
  obtain ⟨sel, hsel⟩ := Option.isSome_iff_exists.mp (List.getLast?_isSome.mpr hne)
  refine ⟨sel, ?_, ?_, ?_, ?_⟩
  · unfold get_highest_resolution
    rw [horder, List.head?_reverse, hsel]
  · exact ((hmem sel).mp (List.mem_mergeSort.mp
      (List.mem_of_getLast?_eq_some hsel))).1
  · exact ((hmem sel).mp (List.mem_mergeSort.mp
      (List.mem_of_getLast?_eq_some hsel))).2
  · intro s hs hp
    exact chaveD_le_getLast hsorted2 s
      (List.mem_mergeSort.mpr ((hmem s).mpr ⟨hs, hp⟩)) sel hsel

theorem fs_lookup_write (fs : FS) (p : String) (c : Nat) :
    fs_lookup (fs_write fs p c) p = some c := by
  simp [fs_lookup, fs_write, List.find?]

theorem os_rename_write (fs : FS) (p novo : String) (c : Nat) :
    os_rename (fs_write fs p c) p novo =
      .ok (fs_write (((fs_write fs p c) : List (String × Nat)).filter
        fun e => e.1 != p) novo c) := by
  simp [os_rename, fs_lookup_write]

theorem fs_lookup_rename_orig (X : FS) (p novo : String) (c : Nat)
    (h : novo ≠ p) :
    fs_lookup (fs_write ((X : List (String × Nat)).filter fun e => e.1 != p)
      novo c) p = none := by
  unfold fs_lookup fs_write
  have hf : List.find? (fun e => e.1 == p)
      ((novo, c) :: ((X.filter fun e => e.1 != p).filter fun e => e.1 != novo))
        = none := by
    apply List.find?_eq_none.mpr
    intro x hx
    rcases List.mem_cons.mp hx with hx1 | hx2
    · subst hx1
      simpa using h
    · have := List.of_mem_filter (List.mem_of_mem_filter hx2)
      simpa using this
  rw [hf]
  rfl

theorem escolher_sem_callback (streams : List MediaStream)
    (r : Option String) : (escolher_stream streams r false).1 = [] := by
  unfold escolher_stream
  cases r with
  | none => rfl
  | some s =>
    dsimp only
    by_cases h : s = ""
    · simp [h]
    · rw [if_neg h]
      cases (streams.filter fun s2 => s2.progressive &&
          s2.resolution == some s).head? <;> simp [emitir]

theorem corpo_sem_callback (env : Env) (pd r : Option String) (a : Bool)
    (fs : FS) : (baixar_video_corpo env pd r a false fs).1 = [] := by
  unfold baixar_video_corpo
  cases hres : env.resolve with
  | error e => simp [emitir]
  | ok p =>
    obtain ⟨vi, streams⟩ := p
    dsimp only
    cases hmk : env.makedirs (pd.getD env.cwd) with
    | error e => simp [emitir]
    | ok u =>
      cases u
      cases a with
      | true =>
        dsimp only
        cases haud : (streams.filter fun s => s.only_audio).head? with
        | none => simp [emitir]
        | some audio =>
          dsimp only
          cases hdl : (env.download (pd.getD env.cwd) audio).2 with
          | error e => simp [emitir]
          | ok pc =>
            obtain ⟨arquivo, conteudo⟩ := pc
            dsimp only
            cases hrn : os_rename (fs_write fs arquivo conteudo) arquivo
                ((os_path_splitext arquivo).1 ++ ".mp3") with
            | error e => simp [emitir]
            | ok fs2 => simp [emitir]
      | false =>
        dsimp only
        rw [if_neg (by simp)]
        cases hsel : (escolher_stream streams r false).2 with
        | none => simp [emitir, escolher_sem_callback]
        | some stream =>
          dsimp only
          cases hdl : (env.download (pd.getD env.cwd) stream).2 with
          | error e => simp [emitir, escolher_sem_callback]
          | ok pc =>
            obtain ⟨arquivo, conteudo⟩ := pc
            simp [emitir, escolher_sem_callback]

theorem baixar_video_sem_callback (env : Env) (pd r : Option String)
    (a : Bool) (fs : FS) : (baixar_video env pd r a false fs).1 = [] := by
  unfold baixar_video
  cases hcorpo : baixar_video_corpo env pd r a false fs with
  | mk t rest =>
    obtain ⟨fs2, res⟩ := rest
    have ht : t = [] := by
      have := corpo_sem_callback env pd r a fs
      rw [hcorpo] at this
      exact this
    cases res with
    | ok caminho => simpa using ht
    | error e => simp [emitir, ht]

theorem porcentagem_antitona {T a b : Nat} (hT : 0 < T) (hba : b < a) :
    porcentagem T a ≤ porcentagem T b := by
  unfold porcentagem
  have hT2 : (0 : Rat) < (T : Rat) := by exact_mod_cast hT
  have h2 : (((T : Int) - (a : Int) : Int) : Rat) ≤
      (((T : Int) - (b : Int) : Int) : Rat) := by
    have h1 : ((T : Int) - (a : Int)) ≤ ((T : Int) - (b : Int)) := by omega
    exact_mod_cast h1
  gcongr

theorem porcentagem_zero {T : Nat} (hT : 0 < T) : porcentagem T 0 = 100 := by
  unfold porcentagem
  have hT2 : (T : Rat) ≠ 0 := by
    exact_mod_cast Nat.pos_iff_ne_zero.mp hT
  have h : (((T : Int) - ((0 : Nat) : Int) : Int) : Rat) = (T : Rat) := by
    push_cast
    ring
  rw [h, div_self hT2, one_mul]

theorem analisar_geral (args : List String) (pasta res : Option String)
    (audio : Bool) :
    analisar_opcoes args pasta res audio =
      ((pasta <|> pasta_primeiro_posicional args),
        resolucao_seguindo args res,
        (audio || args.contains "--audio")) := by
  induction args generalizing pasta res audio with
  | nil =>
    simp [analisar_opcoes, pasta_primeiro_posicional, resolucao_seguindo]
  | cons a resto ih =>
    by_cases ha : a = "--audio"
    · subst ha
      have h1 : analisar_opcoes ("--audio" :: resto) pasta res audio =
          analisar_opcoes resto pasta res true := by
        simp [analisar_opcoes]
      have hsw : comeca_com "--audio" "--" = true := by decide
      have hne : ("--audio" : String) ≠ "--resolucao" := by decide
      rw [h1, ih]
      simp [pasta_primeiro_posicional, resolucao_seguindo, hsw, hne,
        List.filter_cons, List.contains_cons]
    · by_cases hr : a = "--resolucao"
      · subst hr
        have hsw : comeca_com "--resolucao" "--" = true := by decide
        cases resto with
        | nil =>
          have h1 : analisar_opcoes ["--resolucao"] pasta res audio =
              (pasta, res, audio) := by
            simp [analisar_opcoes, hsw]
          rw [h1]
          simp [pasta_primeiro_posicional, resolucao_seguindo, hsw,
            List.filter_cons, List.contains_cons]
        | cons b resto2 =>
          have h1 : analisar_opcoes ("--resolucao" :: b :: resto2) pasta res audio =
              analisar_opcoes (b :: resto2) pasta (some b) audio := by
            simp [analisar_opcoes]
          rw [h1, ih]
          simp [pasta_primeiro_posicional, resolucao_seguindo, hsw,
            List.filter_cons, List.contains_cons]
      · by_cases hsw : comeca_com a "--"
        · have h1 : analisar_opcoes (a :: resto) pasta res audio =
              analisar_opcoes resto pasta res audio := by
            simp [analisar_opcoes, ha, hr, hsw]
          have hac : (a == "--audio") = false := by
            simpa using ha
          have hac2 : ¬ ("--audio" = a) := fun h2 => ha h2.symm
          rw [h1, ih]
          simp [pasta_primeiro_posicional, resolucao_seguindo, hsw, hr, hac,
            hac2, List.filter_cons, List.contains_cons]
        · cases pasta with
          | none =>
            have h1 : analisar_opcoes (a :: resto) none res audio =
                analisar_opcoes resto (some a) res audio := by
              simp [analisar_opcoes, ha, hr, hsw]
            have hac : (a == "--audio") = false := by
              simpa using ha
            have hac2 : ¬ ("--audio" = a) := fun h2 => ha h2.symm
            rw [h1, ih]
            simp [pasta_primeiro_posicional, resolucao_seguindo, hsw, hr, hac,
              hac2, List.filter_cons, List.contains_cons]
          | some p =>
            have h1 : analisar_opcoes (a :: resto) (some p) res audio =
                analisar_opcoes resto (some p) res audio := by
              simp [analisar_opcoes, ha, hr, hsw]
            have hac : (a == "--audio") = false := by
              simpa using ha
            have hac2 : ¬ ("--audio" = a) := fun h2 => ha h2.symm
            rw [h1, ih]
            simp [pasta_primeiro_posicional, resolucao_seguindo, hsw, hr, hac,
              hac2, List.filter_cons, List.contains_cons]

theorem corpo_audio_ignora_resolucao (env : Env) (pd r1 r2 : Option String)
    (cb : Bool) (fs : FS) :
    baixar_video_corpo env pd r1 true cb fs =
      baixar_video_corpo env pd r2 true cb fs := by
  unfold baixar_video_corpo
  cases hres : env.resolve with
  | error e => rfl
  | ok p => rfl

/-! ## Claims -/

/-- C1: for every environment, options and callback, when the body of
`baixar_video` ends in an exception, the wrapper delivers the classified
error message through the reporter (when a callback is present) and returns
cleanly with no file path; `baixar_video` itself is a total function, so no
exception ever escapes to the caller. -/
theorem baixar_video_falha_limpa (env : Env) (pd r : Option String)
    (a cb : Bool) (fs : FS) (t : List Msg) (fs2 : FS) (e : PyErr)
    (h : baixar_video_corpo env pd r a cb fs = (t, fs2, .error e)) :
    baixar_video env pd r a cb fs =
      (t ++ emitir cb (classificar_erro e), fs2, none) ∧
    eh_mensagem_de_erro (classificar_erro e) = true := by
  constructor
  · unfold baixar_video
    rw [h]
  · cases e <;> rfl

/-- Witness for C1: a resolver raising a generic exception ends with the
unexpected-error message and no file path. -/
theorem baixar_video_falha_limpa_testemunha :
    baixar_video env_falha none none false true [] =
      ([Msg.conectando] ++
        emitir true (classificar_erro (.other "rede indisponivel")), [], none) ∧
    eh_mensagem_de_erro (classificar_erro (.other "rede indisponivel")) = true :=
  baixar_video_falha_limpa env_falha none none false true [] [Msg.conectando] []
    (.other "rede indisponivel") rfl

/-- C2: with `apenas_audio = False` and no resolution preference, the
selection of lines 86-88 yields a progressive stream from the resolver whose
numeric resolution key is maximal among the progressive streams (provided
every progressive stream carries a digit-bearing label, as `720p`-style
labels do). -/
theorem selecao_sem_preferencia (streams : List MediaStream) (cb : Bool)
    (hall : ∀ s ∈ streams, s.progressive = true → (chave s).isSome)
    (s0 : MediaStream) (hs0 : s0 ∈ streams) (hp0 : s0.progressive = true) :
    ∃ sel, escolher_stream streams none cb = ([], some sel) ∧ sel ∈ streams ∧
      sel.progressive = true ∧
      ∀ s ∈ streams, s.progressive = true → chaveD s ≤ chaveD sel := by
  obtain ⟨sel, h1, h2, h3, h4⟩ := melhor_resolucao_maxima streams hall s0 hs0 hp0
  exact ⟨sel, by simp [escolher_stream, h1], h2, h3, h4⟩

/-- Witness for C2 on the streams 360p, audio, 1080p, 720p. -/
theorem selecao_sem_preferencia_testemunha :
    (escolher_stream [stream360, streamAudio, stream1080, stream720] none
      true).1 = [] ∧
    (escolher_stream [stream360, streamAudio, stream1080, stream720] none
      true).2.isSome = true := by
  obtain ⟨sel, h1, -, -, -⟩ := selecao_sem_preferencia
    [stream360, streamAudio, stream1080, stream720] true (by decide)
    stream360 (by decide) (by decide)
  rw [h1]
  exact ⟨rfl, rfl⟩

/-- C5: over a simulated download whose `bytes_remaining` events strictly
decrease down to 0 against the fixed `filesize` denominator, the percentages
computed by `on_progress` are non-decreasing, the final one is 100, and the
reported messages are exactly those percentages. -/
theorem progresso_monotono (s : MediaStream) (l : List Nat)
    (hT : 0 < s.filesize)
    (hdec : l.Chain' fun a b => b < a)
    (hlast : l.getLast? = some 0)
    (hbound : ∀ b ∈ l, b ≤ s.filesize) :
    (l.map (porcentagem s.filesize)).Chain' (· ≤ ·) ∧
    (l.map (porcentagem s.filesize)).getLast? = some 100 ∧
    mensagens_progresso s l =
      l.map fun br => Msg.baixado (porcentagem s.filesize br) := by
  refine ⟨?_, ?_, rfl⟩
  · rw [List.chain'_map]
    exact hdec.imp fun a b hab => porcentagem_antitona hT hab
  · rw [List.getLast?_map, hlast]
    simp [porcentagem_zero hT]

/-- Witness for C5 with filesize 4 and events 4, 2, 0. -/
theorem progresso_monotono_testemunha :
    (([4, 2, 0].map (porcentagem streamProgressoTeste.filesize)).Chain'
      (· ≤ ·)) ∧
    ([4, 2, 0].map (porcentagem streamProgressoTeste.filesize)).getLast? =
      some 100 ∧
    mensagens_progresso streamProgressoTeste [4, 2, 0] =
      [4, 2, 0].map fun br =>
        Msg.baixado (porcentagem streamProgressoTeste.filesize br) :=
  progresso_monotono streamProgressoTeste [4, 2, 0] (by decide)
    (by simp [List.chain'_cons, List.chain'_singleton]) (by decide) (by decide)

/-- C6: with `apenas_audio = True` and no audio-only stream, the request ends
as a terminal failure: the `NoneType` attribute error from `audio.download`
is caught, an unexpected-error message is surfaced through the reporter, no
path is returned, and nothing is raised. -/
theorem audio_sem_stream_falha (env : Env) (pd r : Option String) (fs : FS)
    (vi : VideoInfo) (streams : List MediaStream)
    (hres : env.resolve = .ok (vi, streams))
    (hmk : env.makedirs (pd.getD env.cwd) = .ok ())
    (haud : (streams.filter fun s => s.only_audio).head? = none) :
    baixar_video env pd r true true fs =
      ([Msg.conectando, .info vi.titulo vi.duracao vi.visualizacoes,
        .baixandoAudio,
        .erroInesperado "NoneType object has no attribute download"],
        fs, none) := by
  simp [baixar_video, baixar_video_corpo, emitir, hres, hmk, haud,
    classificar_erro]

/-- Witness for C6 on a resolver with only progressive streams. -/
theorem audio_sem_stream_falha_testemunha :
    baixar_video env_sem_audio none none true true [] =
      ([Msg.conectando,
        .info info_exemplo.titulo info_exemplo.duracao info_exemplo.visualizacoes,
        .baixandoAudio,
        .erroInesperado "NoneType object has no attribute download"],
        [], none) :=
  audio_sem_stream_falha env_sem_audio none none [] info_exemplo
    [stream360, stream720] rfl rfl rfl

/-- C7 (corrected): when resolution raises `VideoUnavailable`, the reporter
receives exactly two messages — the initial connecting notice and then the
single message classified as `VideoUnavailable` — and the call returns with
no file path and without raising. -/
theorem video_indisponivel_mensagens (env : Env) (pd r : Option String)
    (a : Bool) (fs : FS)
    (hres : env.resolve = .error .videoUnavailable) :
    baixar_video env pd r a true fs =
      ([Msg.conectando, Msg.erroVideoIndisponivel], fs, none) ∧
    classificar_erro .videoUnavailable = Msg.erroVideoIndisponivel := by
  constructor
  · simp [baixar_video, baixar_video_corpo, hres, emitir, classificar_erro]
  · rfl

/-- Witness for C7 (corrected form). -/
theorem video_indisponivel_mensagens_testemunha :
    baixar_video env_indisponivel none none false true [] =
      ([Msg.conectando, Msg.erroVideoIndisponivel], [], none) ∧
    classificar_erro .videoUnavailable = Msg.erroVideoIndisponivel :=
  video_indisponivel_mensagens env_indisponivel none none false [] rfl

/-- Counterexample for C7 as stated: the reporter receives two messages, not
exactly one — the connecting notice precedes the error. -/
theorem video_indisponivel_contraexemplo :
    (baixar_video env_indisponivel none none false true []).1 =
      [Msg.conectando, Msg.erroVideoIndisponivel] ∧
    ([Msg.conectando, Msg.erroVideoIndisponivel] : List Msg).length ≠ 1 :=
  ⟨rfl, by decide⟩

/-- C10: `obter_resolucoes` is total (never raises): on any resolver
exception it reports an error message through the callback and returns the
empty list, and on success it returns the resolution labels of the
progressive streams in resolver order. -/
theorem obter_resolucoes_seguras (env : Env) :
    (∀ e, env.resolve = .error e →
      obter_resolucoes env true =
        ([Msg.obtendoInformacoes, .erroObterResolucoes (str_erro e)], [])) ∧
    (∀ vi streams, env.resolve = .ok (vi, streams) →
      obter_resolucoes env true =
        ([Msg.obtendoInformacoes, .tituloVideo vi.titulo],
          (streams.filter fun s => s.progressive).map fun s => s.resolution)) := by
  constructor
  · intro e h
    simp [obter_resolucoes, emitir, h]
  · intro vi streams h
    simp [obter_resolucoes, emitir, h]

/-- Witness for C10 on the healthy example environment. -/
theorem obter_resolucoes_seguras_testemunha :
    obter_resolucoes env_exemplo true =
      ([Msg.obtendoInformacoes, .tituloVideo "video exemplo"],
        [some "360p", some "1080p", some "720p"]) :=
  (obter_resolucoes_seguras env_exemplo).2 info_exemplo
    [stream360, streamAudio, stream1080, stream720] rfl

/-- C8 (corrected): for any CLI argument list whose first argument is not
`--gui`, `main` invokes the orchestrator synchronously on the parsed options
— but with no progress reporter at all (the source passes no callback), so no
message, failure messages included, is ever written to standard output. -/
theorem cli_invoca_sem_reporter (env : Env) (prog url : String)
    (resto : List String) (fs : FS) (h : url ≠ "--gui") :
    executar_cli env (prog :: url :: resto) fs =
      some (baixar_video env (analisar_opcoes resto none none false).1
        (analisar_opcoes resto none none false).2.1
        (analisar_opcoes resto none none false).2.2 false fs) ∧
    ∀ (env2 : Env) (pd r : Option String) (a : Bool) (fs2 : FS),
      (baixar_video env2 pd r a false fs2).1 = [] := by
  constructor
  · simp [executar_cli, h]
  · exact fun env2 pd r a fs2 => baixar_video_sem_callback env2 pd r a fs2

/-- Witness for C8 (corrected form): a failing CLI invocation. -/
theorem cli_invoca_sem_reporter_testemunha :
    executar_cli env_falha ("programa" :: "endereco" :: []) [] =
      some (baixar_video env_falha (analisar_opcoes [] none none false).1
        (analisar_opcoes [] none none false).2.1
        (analisar_opcoes [] none none false).2.2 false []) :=
  (cli_invoca_sem_reporter env_falha "programa" "endereco" [] []
    (by decide)).1

/-- Counterexample for C8 as stated: a CLI invocation whose download fails
prints nothing — the reported-message list is empty and the result carries no
file path, so the failure is not reported on standard output. -/
theorem cli_invoca_sem_reporter_contraexemplo :
    executar_cli env_falha ["programa", "endereco"] [] =
      some ([], [], none) := rfl

/-- C9 (corrected): the CLI option loop yields: destination folder equal to
the first argument after the URL that does not start with `--` — the token
following `--resolucao` is not skipped and can become the destination folder;
`apenas_audio` exactly when `--audio` occurs; resolution preference equal to
the token following the (last) `--resolucao` that has one; and a resolution
preference passed alongside `apenas_audio = True` never influences the
orchestrator. -/
theorem analisar_opcoes_caracterizacao (resto : List String) :
    analisar_opcoes resto none none false =
      (pasta_primeiro_posicional resto, resolucao_seguindo resto none,
        resto.contains "--audio") ∧
    ∀ (env : Env) (pd r1 r2 : Option String) (cb : Bool) (fs : FS),
      baixar_video env pd r1 true cb fs = baixar_video env pd r2 true cb fs := by
  constructor
  · simpa using analisar_geral resto none none false
  · intro env pd r1 r2 cb fs
    unfold baixar_video
    rw [corpo_audio_ignora_resolucao env pd r1 r2 cb fs]

/-- Counterexample for C9 as stated: in `url --resolucao 720p destino`, the
resolution label `720p` becomes the destination folder, not `destino`. -/
theorem analisar_opcoes_contraexemplo :
    analisar_opcoes ["--resolucao", "720p", "destino"] none none false =
      (some "720p", some "720p", false) ∧
    (some "720p" : Option String) ≠ some "destino" :=
  ⟨rfl, by decide⟩

/-- C4 (corrected): with `apenas_audio = True` and an audio-only stream
available, the orchestrator selects the first audio-only stream in resolver
order, downloads it, renames the landed file by replacing its extension with
`.mp3` (same content — a rename, not a copy or re-encode), and returns the
renamed path; the file at the pre-rename path is gone — provided that path
did not already carry the `.mp3` name, the degenerate case the
counterexample exhibits. -/
theorem renomeia_audio (env : Env) (pd r : Option String) (cb : Bool)
    (fs : FS) (vi : VideoInfo) (streams : List MediaStream)
    (audio : MediaStream) (eventos : List Nat) (arquivo : String)
    (conteudo : Nat)
    (hres : env.resolve = .ok (vi, streams))
    (hmk : env.makedirs (pd.getD env.cwd) = .ok ())
    (haud : (streams.filter fun s => s.only_audio).head? = some audio)
    (hdl : env.download (pd.getD env.cwd) audio =
      (eventos, .ok (arquivo, conteudo)))
    (hne : (os_path_splitext arquivo).1 ++ ".mp3" ≠ arquivo) :
    ∃ fs2,
      baixar_video env pd r true cb fs =
        (emitir cb Msg.conectando ++
          emitir cb (.info vi.titulo vi.duracao vi.visualizacoes) ++
          emitir cb .baixandoAudio ++
          (if cb then mensagens_progresso audio eventos else []) ++
          emitir cb (.audioSalvo (os_path_basename
            ((os_path_splitext arquivo).1 ++ ".mp3"))),
          fs2, some ((os_path_splitext arquivo).1 ++ ".mp3")) ∧
      fs_lookup fs2 ((os_path_splitext arquivo).1 ++ ".mp3") = some conteudo ∧
      fs_lookup fs2 arquivo = none := by
  refine ⟨fs_write (((fs_write fs arquivo conteudo) : List (String × Nat)).filter
      fun e => e.1 != arquivo) ((os_path_splitext arquivo).1 ++ ".mp3") conteudo,
    ?_, ?_, ?_⟩
  · simp [baixar_video, baixar_video_corpo, hres, hmk, haud, hdl,
      os_rename_write, List.append_assoc]
  · exact fs_lookup_write _ _ _
  · exact fs_lookup_rename_orig _ _ _ _ hne

/-- Witness for C4 (amended form): the audio download lands as
`video exemplo.mp4`, is renamed to `video exemplo.mp3` with the same content,
and the `.mp4` path is gone. -/
theorem renomeia_audio_testemunha :
    fs_lookup (baixar_video env_exemplo none none true true []).2.1
      ((os_path_splitext "/home/usuario/video exemplo.mp4").1 ++ ".mp3") =
        some 11 ∧
    fs_lookup (baixar_video env_exemplo none none true true []).2.1
      "/home/usuario/video exemplo.mp4" = none ∧
    (baixar_video env_exemplo none none true true []).2.2 =
      some ((os_path_splitext "/home/usuario/video exemplo.mp4").1 ++ ".mp3") := by
  obtain ⟨fs2, h1, h2, h3⟩ := renomeia_audio env_exemplo none none true []
    info_exemplo [stream360, streamAudio, stream1080, stream720] streamAudio
    [50, 25, 0] "/home/usuario/video exemplo.mp4" 11 rfl rfl rfl rfl (by decide)
  rw [h1]
  exact ⟨h2, h3, rfl⟩

/-- Counterexample for C4 as stated: when the collaborator already delivers a
`.mp3` file, the rename maps the path onto itself, so the file at the
original pre-rename path still exists after orchestration. -/
theorem renomeia_audio_contraexemplo :
    (baixar_video env_mp3 none none true false []).2.2 = some "musica.mp3" ∧
    fs_lookup (baixar_video env_mp3 none none true false []).2.1
      "musica.mp3" = some 7 :=
  ⟨rfl, rfl⟩

/-- C3: with a non-empty resolution preference, if a progressive stream with
the matching label exists the first such stream is selected exactly;
otherwise the fallback notice is emitted, the numerically highest-resolution
progressive stream is selected instead, and in a successful run the notice
appears in the reported trace before every download-progress message — the
mismatch is not fatal. -/
theorem selecao_com_preferencia (env : Env) (pd : Option String) (r : String)
    (fs : FS) (vi : VideoInfo) (streams : List MediaStream)
    (hr : r ≠ "")
    (hres : env.resolve = .ok (vi, streams))
    (hmk : env.makedirs (pd.getD env.cwd) = .ok ())
    (hall : ∀ s ∈ streams, s.progressive = true → (chave s).isSome) :
    (∀ st, (streams.filter fun s =>
        s.progressive && s.resolution == some r).head? = some st →
      escolher_stream streams (some r) true = ([], some st) ∧ st ∈ streams ∧
        st.progressive = true ∧ st.resolution = some r) ∧
    ((streams.filter fun s =>
        s.progressive && s.resolution == some r) = [] →
      ∀ s0 ∈ streams, s0.progressive = true →
      ∃ sel, get_highest_resolution streams = some sel ∧ sel ∈ streams ∧
        sel.progressive = true ∧
        (∀ s ∈ streams, s.progressive = true → chaveD s ≤ chaveD sel) ∧
        ∀ eventos arquivo conteudo,
          env.download (pd.getD env.cwd) sel =
            (eventos, .ok (arquivo, conteudo)) →
          baixar_video env pd (some r) false true fs =
            ([Msg.conectando, .info vi.titulo vi.duracao vi.visualizacoes,
              .resolucoesDisponiveis ((streams.filter fun s =>
                s.progressive).filterMap fun s => s.resolution),
              .resolucaoNaoDisponivel r, .baixandoVideo sel.resolution] ++
              mensagens_progresso sel eventos ++
              [.videoSalvo (os_path_basename arquivo)],
              fs_write fs arquivo conteudo, some arquivo)) := by
  constructor
  · intro st hst
    have hmem : st ∈ streams.filter fun s =>
        s.progressive && s.resolution == some r := by
      cases hl : streams.filter fun s =>
          s.progressive && s.resolution == some r with
      | nil => rw [hl] at hst; simp at hst
      | cons x xs =>
        rw [hl] at hst
        simp only [List.head?_cons, Option.some.injEq] at hst
        subst hst
        exact List.mem_cons_self _ _
    have hprop := List.of_mem_filter hmem
    simp only [Bool.and_eq_true, beq_iff_eq] at hprop
    refine ⟨?_, List.mem_of_mem_filter hmem, hprop.1, hprop.2⟩
    unfold escolher_stream
    dsimp only
    rw [if_neg hr, hst]
  · intro hnada s0 hs0 hp0
    obtain ⟨sel, hsel, hselmem, hselprog, hselmax⟩ :=
      melhor_resolucao_maxima streams hall s0 hs0 hp0
    have hescolhe : escolher_stream streams (some r) true =
        ([Msg.resolucaoNaoDisponivel r], some sel) := by
      unfold escolher_stream
      dsimp only
      rw [if_neg hr, hnada]
      simp [emitir, hsel]
    have hguard : ((streams.filter fun s => s.progressive).any
        fun s => s.resolution.isNone) = false := by
      rw [List.any_eq_false]
      intro s hs
      have hp := List.of_mem_filter hs
      have := chave_isSome_resolution
        (hall s (List.mem_of_mem_filter hs) (by simpa using hp))
      simp [Option.isNone] at this ⊢
      cases hsr : s.resolution with
      | none => rw [hsr] at this; simp at this
      | some v => simp
    refine ⟨sel, hsel, hselmem, hselprog, hselmax, ?_⟩
    intro eventos arquivo conteudo hdl
    simp [baixar_video, baixar_video_corpo, hres, hmk, hguard, hescolhe,
      hdl, emitir, List.append_assoc]

/-- Witness for C3: the 720p preference matches the 720p stream exactly. -/
theorem selecao_com_preferencia_testemunha :
    escolher_stream [stream360, streamAudio, stream1080, stream720]
        (some "720p") true = ([], some stream720) ∧
    stream720 ∈ [stream360, streamAudio, stream1080, stream720] ∧
    stream720.progressive = true ∧ stream720.resolution = some "720p" :=
  (selecao_com_preferencia env_exemplo none "720p" [] info_exemplo
    [stream360, streamAudio, stream1080, stream720] (by decide) rfl rfl
    (by decide)).1 stream720 rfl

end Ytdl
